import Mathlib

/-! ## Verification of the news-hub-aggregator pipeline core

Shallow embedding of the repository's core logic and proofs about it:

* the region-completeness validation of `GlobalBriefingSynthesizer` and
  `MultiLensSynthesizer` (`src/synthesizers/*.py`),
* the tiered content extraction of `ContentExtractor`
  (`src/modules/content_extractor.py`) and the legacy
  `ContentSummarizer` (`src/content_summarizer.py`),
* checkpointing in `WorkspaceManager` (`src/managers/workspace_manager.py`),
* the phase sequencing of `WeeklyIntelOrchestrator`
  (`src/orchestrators/WeeklyIntelOrchestrator.py`).

External collaborators (the Poe/LLM client, the YouTube transcript API,
Selenium sessions, the filesystem) are modelled as explicit oracle
environments: each definition takes the outcomes of the external calls as
an argument and reproduces the Python control flow around them.
Python `None` is modelled by `Option.none`; a raised exception that escapes
a function is modelled by `Except.error`.
-/

set_option autoImplicit false

universe u

set_option maxRecDepth 16384

/-! ## String helpers (Python semantics) -/

/-- Membership of `needle` as a contiguous sublist (Python `needle in hay`
for strings, on the character level). -/
def char_list_contains (needle : List Char) : List Char → Bool
  | [] => needle.isEmpty
  | c :: rest => needle.isPrefixOf (c :: rest) || char_list_contains needle rest

/-- Python `needle in hay` for strings: substring containment. -/
def str_contains (hay needle : String) : Bool :=
  char_list_contains needle.data hay.data

/-- Python `s.split(sep)[-1]`: the segment after the last separator (the
whole string when the separator does not occur). -/
def py_split_last (sep : Char) (s : String) : String :=
  String.mk (s.data.foldl (fun acc c => if c = sep then [] else acc ++ [c]) [])

/-- Splits `hay` at the first occurrence of `needle`, returning the part
before and the part after the occurrence (Python `re.search` on a literal
pattern). `none` when `needle` does not occur. -/
def split_at_first (needle : List Char) : List Char → Option (List Char × List Char)
  | [] => if needle.isPrefixOf ([] : List Char) then some ([], []) else none
  | c :: rest =>
    if needle.isPrefixOf (c :: rest) then some ([], (c :: rest).drop needle.length)
    else
      match split_at_first needle rest with
      | some (before, after) => some (c :: before, after)
      | none => none

/-! ## Python `dict` model

Python `dict` preserves insertion order; writing to an existing key
overwrites the value in place, so for duplicate keys the **last** write
wins.  We model a dict as an association list with exactly these
semantics, and `{e.region: e for e in entries}` as a left fold of
insertions. -/

/-- Python `m[k] = v`: overwrite in place if the key is present, append
otherwise. -/
def dict_set {α : Type u} (m : List (String × α)) (k : String) (v : α) : List (String × α) :=
  match m with
  | [] => [(k, v)]
  | (k', v') :: rest => if k' = k then (k', v) :: rest else (k', v') :: dict_set rest k v

/-- Python `m.get(k)`. -/
def dict_get {α : Type u} (m : List (String × α)) (k : String) : Option α :=
  match m with
  | [] => none
  | (k', v') :: rest => if k' = k then some v' else dict_get rest k

/-- `{key(x): x for x in xs}` — the dict comprehension used by both
`_validate_and_fill_regions` implementations. -/
def build_map {α : Type u} (key : α → String) (xs : List α) : List (String × α) :=
  xs.foldl (fun m x => dict_set m (key x) x) []

/-- `m[r] if r in m else ph(r)` — the branch body of the fill loop in both
`_validate_and_fill_regions` implementations. -/
def lookup_or {α : Type u} (m : List (String × α)) (ph : String → α) (r : String) : α :=
  match dict_get m r with
  | some e => e
  | none => ph r

/-- The last element of `xs` whose key is `r` (reference function used to
specify the duplicate-key behaviour of `build_map`). -/
def last_with_key {α : Type u} (key : α → String) (xs : List α) (r : String) : Option α :=
  xs.foldl (fun acc x => if key x = r then some x else acc) none

/-! ## Data model of the synthesis stages

The dataclasses `RegionalBriefingEntry`, `GlobalBriefing`, `LensAnalysis`,
`MultiLensRegionEntry` and `MultiLensAnalysis` are imported by the
synthesizers from `interfaces.models`, but their declarations are not part
of the source tree snapshot. -/

/-- Modelled from the spec: the `Entry` of the data model ("a category-keyed
unit of synthesis output; payload is text"), reconstructed from the
constructor calls `RegionalBriefingEntry(region=..., mainstream_narrative=...,
strategic_analysis=...)` in `global_briefing_synthesizer.py`; the dataclass
declaration itself is missing from the source snapshot.  The `date` field of
the containers (defaulted to the current time) is omitted: wall-clock time is
out of scope. -/
structure RegionalBriefingEntry where
  region : String
  mainstream_narrative : String
  strategic_analysis : String
  deriving DecidableEq

/-- Modelled from the spec: a "lens" sub-entry, reconstructed from the calls
`LensAnalysis(lens_name=..., analysis_text=...)` in
`multi_lens_synthesizer.py`. -/
structure LensAnalysis where
  lens_name : String
  analysis_text : String
  deriving DecidableEq

/-- Modelled from the spec: an entry whose payload is a nested list of
lenses, reconstructed from `MultiLensRegionEntry(region=..., lenses=...)`. -/
structure MultiLensRegionEntry where
  region : String
  lenses : List LensAnalysis
  deriving DecidableEq

/-- Modelled from the spec: the container returned by
`GlobalBriefingSynthesizer.synthesize` (`GlobalBriefing(entries=...)`). -/
structure GlobalBriefing where
  entries : List RegionalBriefingEntry
  deriving DecidableEq

/-- Modelled from the spec: the container returned by
`MultiLensSynthesizer.synthesize` (`MultiLensAnalysis(entries=...)`). -/
structure MultiLensAnalysis where
  entries : List MultiLensRegionEntry
  deriving DecidableEq

/-- The canonical, ordered 14-region taxonomy (`REQUIRED_REGIONS`, identical
in both synthesizer modules). -/
def REQUIRED_REGIONS : List String :=
  ["Global",
   "China",
   "East Asia",
   "Singapore",
   "Southeast Asia",
   "South Asia",
   "Central Asia",
   "Russia",
   "West Asia (Middle East)",
   "Africa",
   "Europe",
   "Latin America & Caribbean",
   "North America",
   "Oceania"]

/-! ## Markdown parsing used by both synthesizers

Both `_parse_llm_output` and `_parse_batch_output` split the generated text
with `re.split(r"(?m)^##\s+(.+)$", text)`: in multiline mode the pattern
matches exactly the lines that start with `##`, followed by at least one
whitespace character and at least one further character; the captured group
is the rest of the line, which the parser then strips.  We model the text as
its list of lines (split on the newline character, which is the only
line-boundary the anchors of the pattern recognise inside a Python `str`). -/

/-- Does `line` match `^##\s+(.+)$`?  If so, return the stripped captured
group (which equals the stripped remainder of the line after `##`). -/
def markdown_region_header (line : String) : Option String :=
  match line.data with
  | '#' :: '#' :: c :: rest =>
    if c.isWhitespace && !rest.isEmpty then some (String.mk (c :: rest)).trim else none
  | _ => none

/-- Does `line` match `^###\s+(.+)$` (the lens-level split of
`_parse_lenses`)?  Returns the stripped captured group. -/
def markdown_lens_header (line : String) : Option String :=
  match line.data with
  | '#' :: '#' :: '#' :: c :: rest =>
    if c.isWhitespace && !rest.isEmpty then some (String.mk (c :: rest)).trim else none
  | _ => none

/-- Walks the lines, opening a new section at every header line and
collecting the following lines as that section's body; lines before the
first header (the preamble, index 0 of `re.split`) are discarded, exactly as
the parsers skip it. -/
def collect_sections (header : String → Option String) (lines : List String) :
    List (String × List String) :=
  let step := fun (acc : List (String × List String) × Option (String × List String))
      (l : String) =>
    match header l with
    | some name =>
      match acc.2 with
      | some sec => (acc.1 ++ [sec], some (name, []))
      | none => (acc.1, some (name, []))
    | none =>
      match acc.2 with
      | some sec => (acc.1, some (sec.1, sec.2 ++ [l]))
      | none => acc
  let result := lines.foldl step ([], none)
  match result.2 with
  | some sec => result.1 ++ [sec]
  | none => result.1

/-- The `(region_name, content_block)` pairs produced by the `re.split`
loop: the body lines are rejoined with newlines and stripped, mirroring
`region_sections[i + 1].strip()`. -/
def split_markdown_sections (header : String → Option String) (text : String) :
    List (String × String) :=
  (collect_sections header (text.splitOn "\n")).map
    (fun sec => (sec.1, (String.intercalate "\n" sec.2).trim))

namespace GlobalBriefingSynthesizer

/-- `_parse_llm_output`: splits the response on `##` region headers, then
extracts the two `###` subsections of each block with
`re.search("### Mainstream Narrative\s*(.*?)(?=### Strategic Analysis|$)", ..., DOTALL)`
and `re.search("### Strategic Analysis\s*(.*)", ..., DOTALL)`, falling back
to the literal placeholder texts when a search fails. -/
def parse_llm_output (text : String) : List RegionalBriefingEntry :=
  (split_markdown_sections markdown_region_header text).map (fun sec =>
    let mainstream :=
      match split_at_first "### Mainstream Narrative".data sec.2.data with
      | some pr =>
        (match split_at_first "### Strategic Analysis".data pr.2 with
         | some pr2 => (String.mk pr2.1).trim
         | none => (String.mk pr.2).trim)
      | none => "_No narrative extracted._"
    let strategic :=
      match split_at_first "### Strategic Analysis".data sec.2.data with
      | some pr => (String.mk pr.2).trim
      | none => "_No analysis extracted._"
    { region := sec.1, mainstream_narrative := mainstream,
      strategic_analysis := strategic })

/-- The placeholder entry `_validate_and_fill_regions` creates for a region
that is missing from the parsed output. -/
def placeholder_entry (region : String) : RegionalBriefingEntry :=
  { region := region,
    mainstream_narrative :=
      "*No intelligence found for this region in the current cycle.*",
    strategic_analysis := "*No strategic analysis generated.*" }

/-- `GlobalBriefingSynthesizer._validate_and_fill_regions`: builds
`existing_map = {e.region: e for e in entries}` and then emits, for every
canonical region in order, the mapped entry if present and the placeholder
otherwise (the loop appends one element per canonical region, i.e. a map
over `REQUIRED_REGIONS`). -/
def validate_and_fill_regions (entries : List RegionalBriefingEntry) :
    List RegionalBriefingEntry :=
  let existing_map := build_map RegionalBriefingEntry.region entries
  REQUIRED_REGIONS.map (fun region => lookup_or existing_map placeholder_entry region)

/-- `GlobalBriefingSynthesizer.synthesize`: queries the generation client
once (the prompt text is an external-interface detail) and validates the
parsed output; **any** exception from the try block is caught and answered
with `GlobalBriefing(entries=[])`. -/
def synthesize (query : Except String String) : GlobalBriefing :=
  match query with
  | .ok response_text =>
    { entries := validate_and_fill_regions (parse_llm_output response_text) }
  | .error _ => { entries := [] }

end GlobalBriefingSynthesizer

namespace MultiLensSynthesizer

/-- `_parse_lenses`: splits a region block on `###` lens headers. -/
def parse_lenses (text : String) : List LensAnalysis :=
  (split_markdown_sections markdown_lens_header text).map
    (fun sec => { lens_name := sec.1, analysis_text := sec.2 })

/-- `_parse_batch_output`: splits a batch response on `##` region headers;
a region is kept only when its block yields a non-empty lens list. -/
def parse_batch_output (text : String) : List MultiLensRegionEntry :=
  (split_markdown_sections markdown_region_header text).foldl (fun acc sec =>
    let lenses := parse_lenses sec.2
    if lenses.isEmpty then acc else acc ++ [{ region := sec.1, lenses := lenses }]) []

/-- `_chunk_list`: `[data[i : i + size] for i in range(0, len(data), size)]`
for a positive step. -/
def chunk_list (data : List String) (size : Nat) : List (List String) :=
  (List.range ((data.length + size - 1) / size)).map
    (fun i => (data.drop (i * size)).take size)

/-- The placeholder entry created for a missing region. -/
def placeholder_entry (region : String) : MultiLensRegionEntry :=
  { region := region,
    lenses := [{ lens_name := "System Error",
                 analysis_text := "*Analysis failed or was skipped for this region.*" }] }

/-- `MultiLensSynthesizer._validate_and_fill_regions`: same structure as the
global-briefing variant, with the "System Error" placeholder lens. -/
def validate_and_fill_regions (entries : List MultiLensRegionEntry) :
    List MultiLensRegionEntry :=
  let existing_map := build_map MultiLensRegionEntry.region entries
  REQUIRED_REGIONS.map (fun region => lookup_or existing_map placeholder_entry region)

/-- `MultiLensSynthesizer.synthesize`: queries the client once per batch of
5-5-4 regions (`query i` is the outcome of the call for batch `i`); a batch
whose try block raises contributes nothing, and the validation step then
fills every missing region. -/
def synthesize (query : Nat → Except String String) : MultiLensAnalysis :=
  let batches := chunk_list REQUIRED_REGIONS 5
  let final_entries := (List.range batches.length).foldl (fun acc i =>
    match query i with
    | .ok response_text => acc ++ parse_batch_output response_text
    | .error _ => acc) []
  { entries := validate_and_fill_regions final_entries }

end MultiLensSynthesizer


/-! ## ContentExtractor (`src/modules/content_extractor.py`)

`urlparse` is Python-stdlib; a URL is modelled by its parse result: the raw
string, the (lowercased) hostname or `none`, the path, and the first `v`
query parameter as produced by `parse_qs(query).get("v", [None])[0]`. -/

structure Url where
  raw : String
  hostname : Option String
  path : String
  query_v : Option String

/-- `_get_video_id`: returns the video id string, or `none` for Python
`None` (the implicit fall-through return). -/
def get_video_id (url : Url) : Option String :=
  match url.hostname with
  | some h =>
    if h = "www.youtube.com" ∨ h = "youtube.com" then
      if url.path = "/watch" then url.query_v
      else if "/shorts/".isPrefixOf url.path then
        some (py_split_last '/' url.path)
      else none
    else if h = "youtu.be" then some (py_split_last '/' url.path)
    else none
  | none => none

/-- Outcome of one `YouTubeTranscriptApi().fetch` call: the joined snippet
text on success, a deterministic error (`TranscriptsDisabled` /
`NoTranscriptFound`), or any other (transient) exception. -/
inductive FetchResult where
  | success (text : String)
  | deterministic
  | transient
  deriving DecidableEq

/-- Exceptions that escape the embedded functions. -/
inductive PyErr where
  | typeError
  | nameError
  | valueError
  deriving DecidableEq

/-- Oracle environment for one `ContentExtractor.get_text` call: the outcome
of the transcript-API fetch per attempt index, and the cleaned text (or
`none` for a caught Selenium/unexpected exception) of each Tactiq and each
webpage Selenium attempt. -/
structure ExtractorEnv where
  api_fetch : Nat → FetchResult
  tactiq_attempt : Nat → Option String
  webpage_attempt : Nat → Option String

/-- The retry loop of `_extract_transcript_youtube_api` over the attempt
indices `range(max_retries + 1)`: success returns the text, a deterministic
error returns `""` at once, a transient error falls through to the next
attempt; when the loop exhausts all attempts the function body ends without
a `return` statement, so Python returns `None`. -/
def api_attempt_loop (fetch : Nat → FetchResult) : List Nat → Option String
  | [] => none
  | i :: rest =>
    match fetch i with
    | .success t => some t
    | .deterministic => some ""
    | .transient => api_attempt_loop fetch rest

/-- Number of fetch attempts the loop performs. -/
def api_attempt_count (fetch : Nat → FetchResult) : List Nat → Nat
  | [] => 0
  | i :: rest =>
    match fetch i with
    | .transient => 1 + api_attempt_count fetch rest
    | _ => 1

/-- Number of backoff sleeps the loop performs (`time.sleep` runs only
after a transient error when `attempt < max_retries`, i.e. when further
attempts remain). -/
def api_sleep_count (fetch : Nat → FetchResult) : List Nat → Nat
  | [] => 0
  | i :: rest =>
    match fetch i with
    | .transient => (if rest.isEmpty then 0 else 1) + api_sleep_count fetch rest
    | _ => 0

/-- `_extract_transcript_youtube_api`: a falsy video id (`None` or `""`)
returns `""` before any fetch; otherwise the retry loop runs. -/
def extract_transcript_youtube_api (env : ExtractorEnv) (url : Url)
    (max_retries : Nat) : Option String :=
  match get_video_id url with
  | none => some ""
  | some v =>
    if v = "" then some ""
    else api_attempt_loop env.api_fetch (List.range (max_retries + 1))

/-- The retry loop of `_extract_transcript_youtube_tactiq`: an attempt that
produces non-empty cleaned text returns it; empty text or a caught
exception falls through; after the loop the function returns `""`
explicitly. -/
def tactiq_attempt_loop (att : Nat → Option String) : List Nat → String
  | [] => ""
  | i :: rest =>
    match att i with
    | some t => if t ≠ "" then t else tactiq_attempt_loop att rest
    | none => tactiq_attempt_loop att rest

/-- `_extract_transcript_youtube_tactiq`. -/
def extract_transcript_youtube_tactiq (env : ExtractorEnv) (max_retries : Nat) :
    String :=
  tactiq_attempt_loop env.tactiq_attempt (List.range (max_retries + 1))

/-- The retry loop of `_extract_webpage_content`: same structure as the
Tactiq loop, but the function body ends without a `return` statement after
the loop, so Python returns `None`. -/
def webpage_attempt_loop (att : Nat → Option String) : List Nat → Option String
  | [] => none
  | i :: rest =>
    match att i with
    | some t => if t ≠ "" then some t else webpage_attempt_loop att rest
    | none => webpage_attempt_loop att rest

/-- `_extract_webpage_content`. -/
def extract_webpage_content (env : ExtractorEnv) (max_retries : Nat) :
    Option String :=
  webpage_attempt_loop env.webpage_attempt (List.range (max_retries + 1))

/-- The `max_retries` fixed by `ContentExtractor.__init__`. -/
def content_extractor_max_retries : Nat := 1

/-- `ContentExtractor.get_text`: `"youtube.com" in parsed.hostname` raises
`TypeError` when the hostname is `None`; a recognised YouTube URL goes
through the transcript API and, when that result is falsy (`None` or
`""`), through the Tactiq fallback (whose result — possibly `""` — is
returned as-is); every other URL goes through the webpage extractor. -/
def get_text (env : ExtractorEnv) (url : Url) (max_retries : Nat) :
    Except PyErr (Option String) :=
  match url.hostname with
  | none => .error .typeError
  | some h =>
    if str_contains h "youtube.com" || str_contains h "youtu.be" then
      match extract_transcript_youtube_api env url max_retries with
      | some t =>
        if t ≠ "" then .ok (some t)
        else .ok (some (extract_transcript_youtube_tactiq env max_retries))
      | none => .ok (some (extract_transcript_youtube_tactiq env max_retries))
    else
      .ok (extract_webpage_content env max_retries)

/-! ## Legacy ContentSummarizer (`src/content_summarizer.py`) -/

/-- `MINIMUM_CONTENT_LENGTH`. -/
def MINIMUM_CONTENT_LENGTH : Nat := 150

/-- `_clean_llm_output`: drops blockquote lines (stripped line starting
with `>`), rejoins and strips.  `splitlines` is modelled as a split on the
newline character. -/
def clean_llm_output (s : String) : String :=
  if s = "" then ""
  else
    (String.intercalate "\n"
      ((s.splitOn "\n").filter (fun l => !(l.trim.startsWith ">")))).trim

/-- `_summarize_text`: content below the minimum length is answered with
the error sentinel without calling the generation backend; an API failure
is caught and converted into an error string carrying the exception
text. -/
def summarize_text (llm : String → Except String String) (content : String) :
    String :=
  if content = "" ∨ content.length < MINIMUM_CONTENT_LENGTH then
    "Error: Not enough content to generate a meaningful summary."
  else
    match llm content with
    | .ok raw => clean_llm_output raw
    | .error e => "Error: Failed to generate summary due to an API error: " ++ e

/-- Oracle environment for one `ContentSummarizer.summarize` call: the
strings returned by the three module-level extraction helpers (each returns
`""` on any caught failure) and the generation call. -/
structure SummarizerEnv where
  api_text : String
  tactiq_text : String
  web_text : String
  llm : String → Except String String

namespace ContentSummarizer

/-- `ContentSummarizer.summarize`: routing plus the two minimum-length
gates — the API tier's output falls back to Tactiq when empty or below
`MINIMUM_CONTENT_LENGTH`, and whatever content is finally selected is
answered with the error placeholder when still empty or below the
threshold. -/
def summarize (env : SummarizerEnv) (url : Url) : Except PyErr String :=
  match url.hostname with
  | none => .error .typeError
  | some h =>
    let is_youtube := str_contains h "youtube.com" || str_contains h "youtu.be"
    let content :=
      if is_youtube then
        if env.api_text = "" ∨ env.api_text.length < MINIMUM_CONTENT_LENGTH then
          env.tactiq_text
        else env.api_text
      else env.web_text
    if content = "" ∨ content.length < MINIMUM_CONTENT_LENGTH then
      .ok ("Error: Failed to extract any usable content from " ++ url.raw ++
        " after all attempts.")
    else
      .ok (summarize_text env.llm content)

end ContentSummarizer


/-! ## Concrete inputs used by the extraction claims -/

/-- 200-character adequate transcript used by the C3 scenario. -/
def c3_long : String := String.mk (List.replicate 200 'a')

/-- C3 scenario: the transcript API succeeds with sub-threshold text while
every Tactiq attempt would return adequate text. -/
def c3_env : ExtractorEnv :=
  { api_fetch := fun _ => .success "hi",
    tactiq_attempt := fun _ => some c3_long,
    webpage_attempt := fun _ => none }

/-- A recognised YouTube watch URL. -/
def c3_url : Url :=
  { raw := "https://www.youtube.com/watch?v=abc123",
    hostname := some "www.youtube.com",
    path := "/watch",
    query_v := some "abc123" }

/-- Witness environment: the transcript API succeeds with non-empty text. -/
def c3w_env : ExtractorEnv :=
  { api_fetch := fun _ => .success "transcript",
    tactiq_attempt := fun _ => some "tq",
    webpage_attempt := fun _ => none }

/-- Witness environment: the transcript API fails deterministically. -/
def c3w_env2 : ExtractorEnv :=
  { api_fetch := fun _ => .deterministic,
    tactiq_attempt := fun _ => some "tq",
    webpage_attempt := fun _ => none }

/-- A recognised short-form YouTube URL. -/
def c3w_url : Url :=
  { raw := "https://youtu.be/zzz",
    hostname := some "youtu.be",
    path := "/zzz",
    query_v := none }

/-- C4 scenario: every tier of every family fails. -/
def c4_env : ExtractorEnv :=
  { api_fetch := fun _ => .transient,
    tactiq_attempt := fun _ => none,
    webpage_attempt := fun _ => none }

/-- An ordinary webpage URL. -/
def c4_url : Url :=
  { raw := "https://example.com/article",
    hostname := some "example.com",
    path := "/article",
    query_v := none }

/-- A URL whose parse has no hostname (e.g. a bare word without scheme). -/
def c4_bad_url : Url :=
  { raw := "not-a-url",
    hostname := none,
    path := "not-a-url",
    query_v := none }

/-- 180-character adequate transcript used by the C5 scenario. -/
def c5_long : String := String.mk (List.replicate 180 'b')

/-- C5 scenario: the transcript API succeeds with 2 characters of text. -/
def c5_env : ExtractorEnv :=
  { api_fetch := fun _ => .success "ok",
    tactiq_attempt := fun _ => some c5_long,
    webpage_attempt := fun _ => none }

/-- A recognised short-form YouTube URL. -/
def c5_url : Url :=
  { raw := "https://youtu.be/xyz",
    hostname := some "youtu.be",
    path := "/xyz",
    query_v := none }

/-- 160-character adequate transcript used by the C5 witness. -/
def c5w_long : String := String.mk (List.replicate 160 'c')

/-- C5 witness environment for `ContentSummarizer.summarize`. -/
def c5w_env : SummarizerEnv :=
  { api_text := "tiny",
    tactiq_text := c5w_long,
    web_text := "",
    llm := fun _ => .ok "SUMMARY" }

/-- A recognised short-form YouTube URL for the C5 witness. -/
def c5w_url : Url :=
  { raw := "https://youtu.be/q",
    hostname := some "youtu.be",
    path := "/q",
    query_v := none }

/-- C6 witness environment: the transcript API raises
`TranscriptsDisabled` on its only attempt, the Tactiq fallback succeeds. -/
def c6w_env : ExtractorEnv :=
  { api_fetch := fun _ => .deterministic,
    tactiq_attempt := fun _ => some "fallback transcript",
    webpage_attempt := fun _ => none }

/-- A recognised YouTube watch URL for the C6 witness. -/
def c6w_url : Url :=
  { raw := "https://www.youtube.com/watch?v=abc",
    hostname := some "www.youtube.com",
    path := "/watch",
    query_v := some "abc" }


/-! ## WorkspaceManager (`src/managers/workspace_manager.py`)

State: the process-local cached directory listing (`self.existing_files`)
and the directory contents on disk.  `open(path, "w")` creates/truncates
the file before `json.dump` streams into it, so a failure after a
successful `open` leaves an interrupted file on disk; a failed `open`
leaves the disk unchanged.  The blanket `except Exception` swallows every
failure, so the embedded functions are total. -/

/-- A file on disk: fully written, or left behind by a write that failed
after `open` succeeded (carrying whatever prefix was flushed). -/
inductive FileData where
  | full (content : String)
  | interrupted (content : String)
  deriving DecidableEq

/-- The `WorkspaceManager` state plus the directory it manages. -/
structure WorkspaceState where
  existing_files : List String
  disk : List (String × FileData)
  deriving DecidableEq

/-- A freshly created workspace directory. -/
def empty_workspace : WorkspaceState :=
  { existing_files := [], disk := [] }

/-- `has_checkpoint`: membership of `key + ".json"` in the cached
listing. -/
def has_checkpoint (st : WorkspaceState) (key : String) : Bool :=
  decide ((key ++ ".json") ∈ st.existing_files)

/-- `self.existing_files.add(filename)` (set semantics). -/
def set_add (files : List String) (f : String) : List String :=
  if f ∈ files then files else files ++ [f]

/-- How one checkpoint/report write turns out: `open` itself fails (no
file is created), the dump/write fails after `open` (an interrupted file
with the flushed prefix remains), or everything succeeds. -/
inductive SaveOutcome where
  | openFail
  | dumpFail (written : String)
  | success
  deriving DecidableEq

/-- `save_checkpoint`: writes `key + ".json"`; the cached listing gains the
filename only after the dump succeeded; every failure is logged and
swallowed (the function is total and returns the new state). -/
def save_checkpoint (outcome : SaveOutcome) (st : WorkspaceState)
    (key payload : String) : WorkspaceState :=
  let filename := key ++ ".json"
  match outcome with
  | .openFail => st
  | .dumpFail written =>
    { st with disk := dict_set st.disk filename (.interrupted written) }
  | .success =>
    { existing_files := set_add st.existing_files filename,
      disk := dict_set st.disk filename (.full payload) }

/-- `save_report`: same structure as `save_checkpoint`, raw filename. -/
def save_report (outcome : SaveOutcome) (st : WorkspaceState)
    (filename content : String) : WorkspaceState :=
  match outcome with
  | .openFail => st
  | .dumpFail written =>
    { st with disk := dict_set st.disk filename (.interrupted written) }
  | .success =>
    { existing_files := set_add st.existing_files filename,
      disk := dict_set st.disk filename (.full content) }

/-- `load_report`: reads whatever the file holds, `""` when absent. -/
def load_report (st : WorkspaceState) (filename : String) : String :=
  match dict_get st.disk filename with
  | some (.full c) => c
  | some (.interrupted c) => c
  | none => ""

/-- `os.listdir` at the next `WorkspaceManager.__init__`: every file on
disk, interrupted ones included. -/
def fresh_file_cache (disk : List (String × FileData)) : List String :=
  disk.map (fun p => p.1)

/-- `has_checkpoint` on the next run, whose cache is refreshed from the
directory listing. -/
def next_run_has_checkpoint (disk : List (String × FileData)) (key : String) : Bool :=
  decide ((key ++ ".json") ∈ fresh_file_cache disk)

/-! ## WeeklyIntelOrchestrator (`src/orchestrators/WeeklyIntelOrchestrator.py`)

Phase 1 is modelled at the granularity of its three sub-stages; the
external calls (`consolidator.consolidate()`, `synthesizer.synthesize()`,
`ledger_gen.generate()`) are recorded as events, and their results — like
the report artifacts the builders derive from them — come from the oracle
environment.  Workspace writes are taken as succeeding (the failure modes
of a single write are the subject of `save_checkpoint` above). -/

/-- The external (network/generation) calls phase 1 can make. -/
inductive ExtCall where
  | consolidate
  | synthesize_narrative
  | generate_ledger
  deriving DecidableEq

/-- Oracle data for one `run_phase_1_global_overview` call. -/
structure Phase1Env where
  ms_data : String
  ms_report_filename : String
  ms_report_content : String
  narrative : String
  narrative_report_filename : String
  narrative_report_content : String
  ledger : String
  ledger_report_filename : String
  ledger_report_content : String

namespace WeeklyIntelOrchestrator

/-- Sub-stage 1.3: guard key and save key are both
`"p1_geopolitical_ledger"`. -/
def run_stage_1_3 (env : Phase1Env) (st : WorkspaceState) (calls : List ExtCall) :
    WorkspaceState × List ExtCall :=
  if has_checkpoint st "p1_geopolitical_ledger" then (st, calls)
  else
    (save_report .success
      (save_checkpoint .success st "p1_geopolitical_ledger" env.ledger)
      env.ledger_report_filename env.ledger_report_content,
     calls ++ [.generate_ledger])

/-- `run_phase_1_global_overview`.
Sub-stage 1.1 guards on `has_checkpoint("p1_mainstream")` but saves under
`KEY_MS_HEADLINES = "p1_mainstream_headlines"`; the local
`ms_report_filename` is bound only on its work path.  Sub-stage 1.2 guards
and saves under `"p1_mainstream_narrative"`; on its work path it reads
`ms_report_filename`, which raises `UnboundLocalError` (a `NameError`)
when 1.1 was skipped; it does nothing when the loaded report is empty. -/
def run_phase_1_global_overview (env : Phase1Env) (st0 : WorkspaceState) :
    Except PyErr (WorkspaceState × List ExtCall) :=
  let skip11 := has_checkpoint st0 "p1_mainstream"
  let st1 :=
    if skip11 then st0
    else
      save_report .success
        (save_checkpoint .success st0 "p1_mainstream_headlines" env.ms_data)
        env.ms_report_filename env.ms_report_content
  let calls1 : List ExtCall := if skip11 then [] else [.consolidate]
  let ms_report_filename : Option String :=
    if skip11 then none else some env.ms_report_filename
  if has_checkpoint st1 "p1_mainstream_narrative" then
    .ok (run_stage_1_3 env st1 calls1)
  else
    match ms_report_filename with
    | none => .error .nameError
    | some fn =>
      let ms_content := load_report st1 fn
      if ms_content = "" then .ok (run_stage_1_3 env st1 calls1)
      else
        .ok (run_stage_1_3 env
          (save_report .success
            (save_checkpoint .success st1 "p1_mainstream_narrative" env.narrative)
            env.narrative_report_filename env.narrative_report_content)
          (calls1 ++ [.synthesize_narrative]))

/-- The phases the class docstring declares (0 is workspace setup, done in
`__init__`; 1-7 are the `run_phase_*` methods). -/
def declared_phases : List Nat := [1, 2, 3, 4, 5, 6, 7]

/-- `run`: the try block invokes `run_phase_1_global_overview()` only —
the calls to phases 2-7 are commented out in the source — and an exception
is logged at critical level and re-raised.  Returns the list of phases
invoked and the re-raised exception, if any. -/
def run (phase : Nat → Except PyErr Unit) : List Nat × Option PyErr :=
  match phase 1 with
  | .ok _ => ([1], none)
  | .error e => ([1], some e)

end WeeklyIntelOrchestrator

/-- Concrete oracle data for the C7 resume scenario. -/
def c7_env : Phase1Env :=
  { ms_data := "MSDATA",
    ms_report_filename := "mainstream.md",
    ms_report_content := "MSREPORT",
    narrative := "NARR",
    narrative_report_filename := "narrative.md",
    narrative_report_content := "NARRREPORT",
    ledger := "LEDGER",
    ledger_report_filename := "ledger.md",
    ledger_report_content := "LEDGERREPORT" }

/-- The workspace after one successful phase-1 run from an empty
workspace. -/
def c7_ws1 : WorkspaceState :=
  match WeeklyIntelOrchestrator.run_phase_1_global_overview c7_env empty_workspace with
  | .ok pr => pr.1
  | .error _ => empty_workspace


/-! ## Theorems -/

theorem dict_get_set_self {α : Type u} (m : List (String × α)) (k : String) (v : α) :
    dict_get (dict_set m k v) k = some v := by
  induction m with
  | nil => simp [dict_set, dict_get]
  | cons p rest ih =>
    obtain ⟨k', v'⟩ := p
    by_cases h : k' = k <;> simp [dict_set, dict_get, h, ih]

theorem dict_get_set_other {α : Type u} (m : List (String × α)) (k k' : String) (v : α)
    (h : k ≠ k') : dict_get (dict_set m k v) k' = dict_get m k' := by
  induction m with
  | nil => simp [dict_set, dict_get, h]
  | cons p rest ih =>
    obtain ⟨k₀, v₀⟩ := p
    by_cases h0 : k₀ = k
    · subst h0
      simp [dict_set, dict_get, h]
    · simp [dict_set, dict_get, h0, ih]

theorem last_with_key_acc {α : Type u} (key : α → String) (xs : List α) (r : String)
    (a : Option α) :
    xs.foldl (fun acc x => if key x = r then some x else acc) a =
      match last_with_key key xs r with
      | some e => some e
      | none => a := by
  induction xs generalizing a with
  | nil => simp [last_with_key]
  | cons x rest ih =>
    show rest.foldl _ (if key x = r then some x else a) = _
    by_cases h : key x = r
    · rw [if_pos h]
      rw [ih (some x)]
      show _ = match rest.foldl _ (if key x = r then some x else none) with
        | some e => some e
        | none => a
      rw [if_pos h, ih (some x)]
      cases last_with_key key rest r <;> rfl
    · rw [if_neg h]
      rw [ih a]
      show _ = match rest.foldl _ (if key x = r then some x else none) with
        | some e => some e
        | none => a
      rw [if_neg h, ih none]
      cases last_with_key key rest r <;> rfl

theorem dict_get_build_map {α : Type u} (key : α → String) (xs : List α) (r : String) :
    dict_get (build_map key xs) r = last_with_key key xs r := by
  suffices h : ∀ m : List (String × α),
      dict_get (xs.foldl (fun m x => dict_set m (key x) x) m) r =
        match last_with_key key xs r with
        | some e => some e
        | none => dict_get m r by
    have := h []
    simp only [build_map]
    rw [this]
    cases last_with_key key xs r <;> simp [dict_get]
  induction xs with
  | nil => intro m; simp [last_with_key]
  | cons x rest ih =>
    intro m
    show dict_get (rest.foldl _ (dict_set m (key x) x)) r = _
    rw [ih (dict_set m (key x) x)]
    have hlast : last_with_key key (x :: rest) r =
        match last_with_key key rest r with
        | some e => some e
        | none => if key x = r then some x else none := by
      show rest.foldl _ (if key x = r then some x else none) = _
      rw [last_with_key_acc]
    rw [hlast]
    by_cases h : key x = r
    · subst h
      cases last_with_key key rest (key x) <;>
        simp [dict_get_set_self]
    · cases hrest : last_with_key key rest r <;>
        simp [dict_get_set_other m (key x) r x h, h]

theorem last_with_key_mem {α : Type u} (key : α → String) (xs : List α) (r : String)
    (e : α) (h : last_with_key key xs r = some e) : e ∈ xs ∧ key e = r := by
  induction xs with
  | nil => simp [last_with_key] at h
  | cons x rest ih =>
    have hx : last_with_key key (x :: rest) r =
        match last_with_key key rest r with
        | some e => some e
        | none => if key x = r then some x else none := by
      show rest.foldl _ (if key x = r then some x else none) = _
      rw [last_with_key_acc]
    rw [hx] at h
    cases hrest : last_with_key key rest r with
    | some e' =>
      rw [hrest] at h
      obtain ⟨hmem, hkey⟩ := ih (by rw [hrest]; exact h)
      exact ⟨List.mem_cons_of_mem x hmem, hkey⟩
    | none =>
      rw [hrest] at h
      by_cases hk : key x = r
      · rw [if_pos hk] at h
        have he := Option.some.inj h
        subst he
        exact ⟨List.mem_cons_self _ _, hk⟩
      · rw [if_neg hk] at h
        cases h

theorem last_with_key_eq_none {α : Type u} (key : α → String) (xs : List α) (r : String)
    (h : ∀ x ∈ xs, key x ≠ r) : last_with_key key xs r = none := by
  induction xs with
  | nil => rfl
  | cons x rest ih =>
    have hx : last_with_key key (x :: rest) r =
        match last_with_key key rest r with
        | some e => some e
        | none => if key x = r then some x else none := by
      show rest.foldl _ (if key x = r then some x else none) = _
      rw [last_with_key_acc]
    rw [hx, ih (fun y hy => h y (List.mem_cons_of_mem x hy)),
      if_neg (h x (List.mem_cons_self x rest))]

theorem last_with_key_none_forall {α : Type u} (key : α → String) (xs : List α) (r : String)
    (h : last_with_key key xs r = none) : ∀ x ∈ xs, key x ≠ r := by
  induction xs with
  | nil => intro x hx; cases hx
  | cons y rest ih =>
    have hy : last_with_key key (y :: rest) r =
        match last_with_key key rest r with
        | some e => some e
        | none => if key y = r then some y else none := by
      show rest.foldl _ (if key y = r then some y else none) = _
      rw [last_with_key_acc]
    rw [hy] at h
    cases hrest : last_with_key key rest r with
    | some e => rw [hrest] at h; cases h
    | none =>
      rw [hrest] at h
      intro x hx
      cases List.mem_cons.mp hx with
      | inl heq =>
        subst heq
        intro hk
        rw [if_pos hk] at h
        cases h
      | inr hmem => exact ih hrest x hmem

theorem last_with_key_is_some {α : Type u} (key : α → String) (xs : List α) (r : String)
    (x : α) (hx : x ∈ xs) (hk : key x = r) : ∃ e, last_with_key key xs r = some e := by
  cases h : last_with_key key xs r with
  | some e => exact ⟨e, rfl⟩
  | none => exact absurd hk (last_with_key_none_forall key xs r h x hx)

/-! ## Properties of the fill step shared by both validators -/

theorem lookup_or_of_get_some {α : Type u} (m : List (String × α)) (ph : String → α)
    (r : String) (e : α) (h : dict_get m r = some e) : lookup_or m ph r = e := by
  simp [lookup_or, h]

theorem lookup_or_of_get_none {α : Type u} (m : List (String × α)) (ph : String → α)
    (r : String) (h : dict_get m r = none) : lookup_or m ph r = ph r := by
  simp [lookup_or, h]

theorem fill_map_key {α : Type u} (key : α → String) (ph : String → α)
    (hph : ∀ r, key (ph r) = r) (xs : List α) (rs : List String) :
    (rs.map (fun r => lookup_or (build_map key xs) ph r)).map key = rs := by
  induction rs with
  | nil => rfl
  | cons r rest ih =>
    cases h : dict_get (build_map key xs) r with
    | some e =>
      have hk : key e = r :=
        (last_with_key_mem key xs r e (by rw [← dict_get_build_map]; exact h)).2
      simp [lookup_or_of_get_some _ ph _ _ h, hk, ih]
    | none =>
      simp [lookup_or_of_get_none _ ph _ h, hph r, ih]

theorem fill_mem_cases {α : Type u} (key : α → String) (ph : String → α)
    (hph : ∀ r, key (ph r) = r) (xs : List α) (rs : List String) :
    ∀ e ∈ rs.map (fun r => lookup_or (build_map key xs) ph r),
      e ∈ xs ∨ e = ph (key e) := by
  intro e he
  obtain ⟨r, hr, hfill⟩ := List.mem_map.mp he
  cases h : dict_get (build_map key xs) r with
  | some x =>
    rw [lookup_or_of_get_some _ ph _ _ h] at hfill
    rw [← hfill]
    exact Or.inl (last_with_key_mem key xs r x
      (by rw [← dict_get_build_map]; exact h)).1
  | none =>
    rw [lookup_or_of_get_none _ ph _ h] at hfill
    rw [← hfill, hph r]
    exact Or.inr rfl

theorem fill_keeps_entry {α : Type u} (key : α → String) (ph : String → α)
    (xs : List α) (rs : List String) (r : String) (hr : r ∈ rs)
    (x : α) (hx : x ∈ xs) (hk : key x = r) :
    ∃ e ∈ rs.map (fun r => lookup_or (build_map key xs) ph r),
      key e = r ∧ e ∈ xs := by
  obtain ⟨e, he⟩ := last_with_key_is_some key xs r x hx hk
  have hd : dict_get (build_map key xs) r = some e := by
    rw [dict_get_build_map]; exact he
  obtain ⟨hmem, hkey⟩ := last_with_key_mem key xs r e he
  refine ⟨e, ?_, hkey, hmem⟩
  rw [← lookup_or_of_get_some _ ph _ _ hd]
  exact List.mem_map_of_mem _ hr

theorem fill_placeholder_mem {α : Type u} (key : α → String) (ph : String → α)
    (xs : List α) (rs : List String) (r : String) (hr : r ∈ rs)
    (habs : ∀ x ∈ xs, key x ≠ r) :
    ph r ∈ rs.map (fun r => lookup_or (build_map key xs) ph r) := by
  have hd : dict_get (build_map key xs) r = none := by
    rw [dict_get_build_map]
    exact last_with_key_eq_none key xs r habs
  rw [← lookup_or_of_get_none _ ph _ hd]
  exact List.mem_map_of_mem _ hr

theorem fill_last_mem {α : Type u} (key : α → String) (ph : String → α)
    (xs : List α) (rs : List String) (r : String) (hr : r ∈ rs)
    (e : α) (h : last_with_key key xs r = some e) :
    e ∈ rs.map (fun r => lookup_or (build_map key xs) ph r) := by
  have hd : dict_get (build_map key xs) r = some e := by
    rw [dict_get_build_map]; exact h
  rw [← lookup_or_of_get_some _ ph _ _ hd]
  exact List.mem_map_of_mem _ hr

theorem countP_beq_one_of_nodup (rs : List String) (hnd : rs.Nodup) (r : String)
    (hr : r ∈ rs) : rs.countP (fun s => s == r) = 1 := by
  induction rs with
  | nil => cases hr
  | cons a rest ih =>
    rw [List.countP_cons]
    by_cases heq : a = r
    · have hnr : r ∉ rest := by
        intro hmem
        exact (List.nodup_cons.mp hnd).1 (heq.symm ▸ hmem)
      have h0 : rest.countP (fun s => s == r) = 0 := by
        rw [List.countP_eq_zero]
        intro b hb
        have hbr : b ≠ r := fun hbr => hnr (hbr ▸ hb)
        simp [hbr]
      simp [h0, heq]
    · have hmem : r ∈ rest := by
        rcases List.mem_cons.mp hr with h | h
        · exact absurd h.symm heq
        · exact h
      rw [ih (List.nodup_cons.mp hnd).2 hmem]
      simp [heq]

theorem gb_validate_map_region (es : List RegionalBriefingEntry) :
    (GlobalBriefingSynthesizer.validate_and_fill_regions es).map
      RegionalBriefingEntry.region = REQUIRED_REGIONS :=
  fill_map_key RegionalBriefingEntry.region GlobalBriefingSynthesizer.placeholder_entry
    (fun _ => rfl) es REQUIRED_REGIONS

theorem ml_validate_map_region (fs : List MultiLensRegionEntry) :
    (MultiLensSynthesizer.validate_and_fill_regions fs).map
      MultiLensRegionEntry.region = REQUIRED_REGIONS :=
  fill_map_key MultiLensRegionEntry.region MultiLensSynthesizer.placeholder_entry
    (fun _ => rfl) fs REQUIRED_REGIONS

/-- C1: for every list of parsed region entries — arbitrarily malformed —
both `_validate_and_fill_regions` implementations return a list whose region
names are exactly the 14 canonical regions, in canonical order (hence no
duplicates and no omissions); an output entry is either a parsed entry kept
verbatim or the placeholder for its region; a parsed entry for a canonical
region is kept, and every missing canonical region is filled with the
placeholder entry carrying the explicit no-data marker. -/
theorem validate_and_fill_regions_canonical
    (es : List RegionalBriefingEntry) (fs : List MultiLensRegionEntry) :
    ((GlobalBriefingSynthesizer.validate_and_fill_regions es).map
        RegionalBriefingEntry.region = REQUIRED_REGIONS ∧
      (∀ e ∈ GlobalBriefingSynthesizer.validate_and_fill_regions es,
        e ∈ es ∨ e = GlobalBriefingSynthesizer.placeholder_entry e.region) ∧
      (∀ r ∈ REQUIRED_REGIONS, (∃ x ∈ es, x.region = r) →
        ∃ e ∈ GlobalBriefingSynthesizer.validate_and_fill_regions es,
          e.region = r ∧ e ∈ es) ∧
      (∀ r ∈ REQUIRED_REGIONS, (∀ x ∈ es, x.region ≠ r) →
        GlobalBriefingSynthesizer.placeholder_entry r ∈
          GlobalBriefingSynthesizer.validate_and_fill_regions es)) ∧
    ((MultiLensSynthesizer.validate_and_fill_regions fs).map
        MultiLensRegionEntry.region = REQUIRED_REGIONS ∧
      (∀ e ∈ MultiLensSynthesizer.validate_and_fill_regions fs,
        e ∈ fs ∨ e = MultiLensSynthesizer.placeholder_entry e.region) ∧
      (∀ r ∈ REQUIRED_REGIONS, (∃ x ∈ fs, x.region = r) →
        ∃ e ∈ MultiLensSynthesizer.validate_and_fill_regions fs,
          e.region = r ∧ e ∈ fs) ∧
      (∀ r ∈ REQUIRED_REGIONS, (∀ x ∈ fs, x.region ≠ r) →
        MultiLensSynthesizer.placeholder_entry r ∈
          MultiLensSynthesizer.validate_and_fill_regions fs)) := by
  refine ⟨⟨gb_validate_map_region es, ?_, ?_, ?_⟩,
    ml_validate_map_region fs, ?_, ?_, ?_⟩
  · exact fill_mem_cases RegionalBriefingEntry.region
      GlobalBriefingSynthesizer.placeholder_entry (fun _ => rfl) es REQUIRED_REGIONS
  · intro r hr hx
    obtain ⟨x, hxmem, hxr⟩ := hx
    exact fill_keeps_entry RegionalBriefingEntry.region
      GlobalBriefingSynthesizer.placeholder_entry es REQUIRED_REGIONS r hr x hxmem hxr
  · intro r hr habs
    exact fill_placeholder_mem RegionalBriefingEntry.region
      GlobalBriefingSynthesizer.placeholder_entry es REQUIRED_REGIONS r hr habs
  · exact fill_mem_cases MultiLensRegionEntry.region
      MultiLensSynthesizer.placeholder_entry (fun _ => rfl) fs REQUIRED_REGIONS
  · intro r hr hx
    obtain ⟨x, hxmem, hxr⟩ := hx
    exact fill_keeps_entry MultiLensRegionEntry.region
      MultiLensSynthesizer.placeholder_entry fs REQUIRED_REGIONS r hr x hxmem hxr
  · intro r hr habs
    exact fill_placeholder_mem MultiLensRegionEntry.region
      MultiLensSynthesizer.placeholder_entry fs REQUIRED_REGIONS r hr habs

/-- Witness for C1 at a concrete malformed parse result: one parsed entry
(`China`) and one unrecognized extra region (`Atlantis`); the canonical
order is restored, the `China` entry is kept, and `Global` is
placeholder-filled. -/
theorem validate_and_fill_regions_canonical_witness :
    (GlobalBriefingSynthesizer.validate_and_fill_regions
        [⟨"Atlantis", "x", "y"⟩, ⟨"China", "m", "s"⟩]).map
      RegionalBriefingEntry.region = REQUIRED_REGIONS ∧
    (∃ e ∈ GlobalBriefingSynthesizer.validate_and_fill_regions
        [⟨"Atlantis", "x", "y"⟩, ⟨"China", "m", "s"⟩],
      e.region = "China" ∧ e ∈ [⟨"Atlantis", "x", "y"⟩, ⟨"China", "m", "s"⟩]) ∧
    GlobalBriefingSynthesizer.placeholder_entry "Global" ∈
      GlobalBriefingSynthesizer.validate_and_fill_regions
        [⟨"Atlantis", "x", "y"⟩, ⟨"China", "m", "s"⟩] ∧
    MultiLensSynthesizer.placeholder_entry "Oceania" ∈
      MultiLensSynthesizer.validate_and_fill_regions [] := by
  have h := validate_and_fill_regions_canonical
    [⟨"Atlantis", "x", "y"⟩, ⟨"China", "m", "s"⟩] []
  refine ⟨h.1.1, ?_, ?_, ?_⟩
  · exact h.1.2.2.1 "China" (by decide) ⟨⟨"China", "m", "s"⟩, by decide, rfl⟩
  · exact h.1.2.2.2 "Global" (by decide) (by decide)
  · exact h.2.2.2.2 "Oceania" (by decide) (by decide)

/-- C2 counterexample: when the generation client raises,
`GlobalBriefingSynthesizer.synthesize` returns normally but with an **empty**
entry list — not the 14-region canonical taxonomy — bypassing the
completeness-validation path. -/
theorem global_synthesize_exception_empty :
    (GlobalBriefingSynthesizer.synthesize
        (Except.error "Poe transport failure")).entries = [] ∧
    (GlobalBriefingSynthesizer.synthesize
        (Except.error "Poe transport failure")).entries.map
      RegionalBriefingEntry.region ≠ REQUIRED_REGIONS := by
  exact ⟨rfl, by decide⟩

/-- C2 amended: `MultiLensSynthesizer.synthesize` converts any combination
of per-batch generation failures into placeholders via the validation path
and always returns exactly the canonical 14-region entry set;
`GlobalBriefingSynthesizer.synthesize`, however, answers a generation
exception with an empty entry list. -/
theorem synthesize_exception_handling :
    (∀ query : Nat → Except String String,
      (MultiLensSynthesizer.synthesize query).entries.map
        MultiLensRegionEntry.region = REQUIRED_REGIONS) ∧
    (∀ msg : String,
      (GlobalBriefingSynthesizer.synthesize (Except.error msg)).entries = []) := by
  constructor
  · intro query
    exact ml_validate_map_region _
  · intro msg
    rfl

/-- C10: duplicate entries for the same canonical region collapse to a
single output entry — the dict comprehension makes the last parsed
occurrence win — so the emitted list never contains two entries for one
region. -/
theorem validate_duplicate_regions_last_wins
    (es : List RegionalBriefingEntry) (fs : List MultiLensRegionEntry)
    (r : String) (hr : r ∈ REQUIRED_REGIONS) :
    ((GlobalBriefingSynthesizer.validate_and_fill_regions es).countP
        (fun x => x.region == r) = 1 ∧
      ∀ e, last_with_key RegionalBriefingEntry.region es r = some e →
        e ∈ GlobalBriefingSynthesizer.validate_and_fill_regions es) ∧
    ((MultiLensSynthesizer.validate_and_fill_regions fs).countP
        (fun x => x.region == r) = 1 ∧
      ∀ e, last_with_key MultiLensRegionEntry.region fs r = some e →
        e ∈ MultiLensSynthesizer.validate_and_fill_regions fs) := by
  refine ⟨⟨?_, ?_⟩, ?_, ?_⟩
  · have h1 : (GlobalBriefingSynthesizer.validate_and_fill_regions es).countP
        (fun x => x.region == r) =
        ((GlobalBriefingSynthesizer.validate_and_fill_regions es).map
          RegionalBriefingEntry.region).countP (fun s => s == r) :=
      (List.countP_map (fun s => s == r) RegionalBriefingEntry.region
        (GlobalBriefingSynthesizer.validate_and_fill_regions es)).symm
    rw [h1, gb_validate_map_region es]
    exact countP_beq_one_of_nodup REQUIRED_REGIONS (by decide) r hr
  · intro e he
    exact fill_last_mem RegionalBriefingEntry.region
      GlobalBriefingSynthesizer.placeholder_entry es REQUIRED_REGIONS r hr e he
  · have h1 : (MultiLensSynthesizer.validate_and_fill_regions fs).countP
        (fun x => x.region == r) =
        ((MultiLensSynthesizer.validate_and_fill_regions fs).map
          MultiLensRegionEntry.region).countP (fun s => s == r) :=
      (List.countP_map (fun s => s == r) MultiLensRegionEntry.region
        (MultiLensSynthesizer.validate_and_fill_regions fs)).symm
    rw [h1, ml_validate_map_region fs]
    exact countP_beq_one_of_nodup REQUIRED_REGIONS (by decide) r hr
  · intro e he
    exact fill_last_mem MultiLensRegionEntry.region
      MultiLensSynthesizer.placeholder_entry fs REQUIRED_REGIONS r hr e he

/-- Witness for C10: two parsed entries both named `China`; the second
(last) one is the entry kept, and the output holds exactly one `China`
entry. -/
theorem validate_duplicate_regions_last_wins_witness :
    (⟨"China", "b", "y"⟩ : RegionalBriefingEntry) ∈
      GlobalBriefingSynthesizer.validate_and_fill_regions
        [⟨"China", "a", "x"⟩, ⟨"China", "b", "y"⟩] ∧
    (GlobalBriefingSynthesizer.validate_and_fill_regions
        [⟨"China", "a", "x"⟩, ⟨"China", "b", "y"⟩]).countP
      (fun x => x.region == "China") = 1 := by
  have h := validate_duplicate_regions_last_wins
    [⟨"China", "a", "x"⟩, ⟨"China", "b", "y"⟩] [] "China" (by decide)
  exact ⟨h.1.2 ⟨"China", "b", "y"⟩ (by decide), h.1.1⟩

/-- C3 counterexample: with the first transcript tier succeeding on
sub-threshold text ("hi", 2 characters) and the browser-automation tier
able to deliver adequate text, `get_text` returns the sub-threshold text of
the first tier instead of escalating — there is no metered/paid Tier 0 and
no minimum-content acceptance test in the chain. -/
theorem get_text_subthreshold_tier_accepted :
    get_text c3_env c3_url 1 = .ok (some "hi") ∧
    "hi".length < MINIMUM_CONTENT_LENGTH ∧
    MINIMUM_CONTENT_LENGTH ≤ (extract_transcript_youtube_tactiq c3_env 1).length ∧
    (some "hi" : Option String) ≠ some (extract_transcript_youtube_tactiq c3_env 1) := by
  exact ⟨rfl, by decide, by decide, by decide⟩

/-- C3 amended: for a recognised YouTube URL `get_text` attempts two tiers
in priority order — the free community transcript API, then the
browser-automation Tactiq scrape — moving to Tactiq exactly when the API
tier yields no non-empty text, and returning the first tier's text
otherwise. -/
theorem get_text_two_tier_routing
    (env : ExtractorEnv) (url : Url) (mr : Nat) (h : String)
    (hh : url.hostname = some h)
    (hyt : (str_contains h "youtube.com" || str_contains h "youtu.be") = true) :
    (∀ t, extract_transcript_youtube_api env url mr = some t → t ≠ "" →
      get_text env url mr = .ok (some t)) ∧
    ((extract_transcript_youtube_api env url mr = some "" ∨
        extract_transcript_youtube_api env url mr = none) →
      get_text env url mr = .ok (some (extract_transcript_youtube_tactiq env mr))) := by
  constructor
  · intro t hapi ht
    simp [get_text, hh, hyt, hapi, ht]
  · intro hcase
    rcases hcase with hapi | hapi <;>
      simp [get_text, hh, hyt, hapi]

/-- Witness for C3 amended: a non-empty API transcript is returned as-is;
a deterministic API failure routes to the Tactiq result. -/
theorem get_text_two_tier_routing_witness :
    get_text c3w_env c3w_url 1 = .ok (some "transcript") ∧
    get_text c3w_env2 c3w_url 1 = .ok (some "tq") := by
  have h1 := get_text_two_tier_routing c3w_env c3w_url 1 "youtu.be" rfl (by decide)
  have h2 := get_text_two_tier_routing c3w_env2 c3w_url 1 "youtu.be" rfl (by decide)
  constructor
  · exact h1.1 "transcript" rfl (by decide)
  · have := h2.2 (Or.inl rfl)
    rw [this]
    rfl

/-- C4 evaluated at the failing inputs: for a webpage URL whose every
extraction attempt fails, `get_text` returns Python `None` (the
`_extract_webpage_content` body falls off the end) — not the empty string —
and for a URL whose parse has no hostname it raises `TypeError` from
`"youtube.com" in parsed.hostname`. -/
theorem get_text_exhausted_returns_none :
    get_text c4_env c4_url 1 = .ok none ∧
    (none : Option String) ≠ some "" ∧
    get_text c4_env c4_bad_url 1 = .error .typeError := by
  exact ⟨rfl, by decide, rfl⟩

/-- C5 counterexample: `get_text` accepts and returns a 2-character API
transcript even though it is far below the 150-character minimum and the
next tier held adequate text — no tier of `get_text` applies the
minimum-length gate. -/
theorem get_text_no_min_length_gate :
    get_text c5_env c5_url 1 = .ok (some "ok") ∧
    "ok".length < MINIMUM_CONTENT_LENGTH ∧
    MINIMUM_CONTENT_LENGTH ≤ (extract_transcript_youtube_tactiq c5_env 1).length := by
  exact ⟨rfl, by decide, by decide⟩

/-- C5 amended: the minimum-length gate lives in the legacy
`ContentSummarizer.summarize`, not in `ContentExtractor.get_text`: a
YouTube API result below `MINIMUM_CONTENT_LENGTH` triggers fallback to the
Tactiq tier; an adequate API result is used directly; and content below the
threshold is answered by `_summarize_text` with the error placeholder
instead of a generation call. -/
theorem summarize_min_length_gate
    (env : SummarizerEnv) (url : Url) (h : String)
    (hh : url.hostname = some h)
    (hyt : (str_contains h "youtube.com" || str_contains h "youtu.be") = true) :
    (env.api_text.length < MINIMUM_CONTENT_LENGTH →
      ContentSummarizer.summarize env url =
        (if env.tactiq_text = "" ∨ env.tactiq_text.length < MINIMUM_CONTENT_LENGTH then
          Except.ok ("Error: Failed to extract any usable content from " ++ url.raw ++
            " after all attempts.")
        else Except.ok (summarize_text env.llm env.tactiq_text))) ∧
    (MINIMUM_CONTENT_LENGTH ≤ env.api_text.length →
      ContentSummarizer.summarize env url =
        Except.ok (summarize_text env.llm env.api_text)) ∧
    (∀ (llm : String → Except String String) (c : String),
      c.length < MINIMUM_CONTENT_LENGTH →
      summarize_text llm c =
        "Error: Not enough content to generate a meaningful summary.") := by
  refine ⟨?_, ?_, ?_⟩
  · intro hlow
    have hsel : env.api_text = "" ∨ env.api_text.length < MINIMUM_CONTENT_LENGTH :=
      Or.inr hlow
    simp [ContentSummarizer.summarize, hh, hyt, hsel]
  · intro hhigh
    have hsel : ¬(env.api_text = "" ∨ env.api_text.length < MINIMUM_CONTENT_LENGTH) := by
      rintro (he | hl)
      · rw [he] at hhigh
        exact absurd hhigh (by decide)
      · omega
    have hgate : ¬(env.api_text = "" ∨ env.api_text.length < MINIMUM_CONTENT_LENGTH) :=
      hsel
    simp [ContentSummarizer.summarize, hh, hyt, hsel]
  · intro llm c hc
    have hsel : c = "" ∨ c.length < MINIMUM_CONTENT_LENGTH := Or.inr hc
    simp [summarize_text, hsel]

/-- Witness for C5 amended: a 4-character API transcript falls back to the
adequate Tactiq text, and a 4-character final content yields the error
placeholder. -/
theorem summarize_min_length_gate_witness :
    ContentSummarizer.summarize c5w_env c5w_url =
      Except.ok (summarize_text c5w_env.llm c5w_env.tactiq_text) ∧
    summarize_text c5w_env.llm "tiny" =
      "Error: Not enough content to generate a meaningful summary." := by
  have h := summarize_min_length_gate c5w_env c5w_url "youtu.be" rfl (by decide)
  constructor
  · rw [h.1 (by decide), if_neg (by decide)]
  · exact h.2.2 c5w_env.llm "tiny" (by decide)

/-- C6: a deterministic transcript-API failure (`TranscriptsDisabled` /
`NoTranscriptFound`) on the first attempt makes the API tier perform
exactly one attempt and zero backoff sleeps, whatever the configured retry
budget, return the falsy `""`, and escalate `get_text` immediately to the
Tactiq fallback tier. -/
theorem api_deterministic_fail_fast
    (env : ExtractorEnv) (url : Url) (mr : Nat) (h v : String)
    (hh : url.hostname = some h)
    (hyt : (str_contains h "youtube.com" || str_contains h "youtu.be") = true)
    (hv : get_video_id url = some v) (hv2 : v ≠ "")
    (hdet : env.api_fetch 0 = FetchResult.deterministic) :
    api_attempt_count env.api_fetch (List.range (mr + 1)) = 1 ∧
    api_sleep_count env.api_fetch (List.range (mr + 1)) = 0 ∧
    extract_transcript_youtube_api env url mr = some "" ∧
    get_text env url mr = .ok (some (extract_transcript_youtube_tactiq env mr)) := by
  have hrange : List.range (mr + 1) = 0 :: List.map Nat.succ (List.range mr) :=
    List.range_succ_eq_map mr
  have hapi : extract_transcript_youtube_api env url mr = some "" := by
    simp [extract_transcript_youtube_api, hv, hv2, hrange, api_attempt_loop, hdet]
  refine ⟨?_, ?_, hapi, ?_⟩
  · rw [hrange]
    simp [api_attempt_count, hdet]
  · rw [hrange]
    simp [api_sleep_count, hdet]
  · simp [get_text, hh, hyt, hapi]

/-- Witness for C6 with the repository's configured budget
(`max_retries = 1`, i.e. two allowed attempts): one attempt, no sleep,
Tactiq text returned. -/
theorem api_deterministic_fail_fast_witness :
    api_attempt_count c6w_env.api_fetch (List.range 2) = 1 ∧
    api_sleep_count c6w_env.api_fetch (List.range 2) = 0 ∧
    get_text c6w_env c6w_url 1 = .ok (some "fallback transcript") := by
  have h := api_deterministic_fail_fast c6w_env c6w_url 1 "www.youtube.com" "abc"
    rfl (by decide) (by decide) (by decide) rfl
  refine ⟨h.1, h.2.1, ?_⟩
  rw [h.2.2.2]
  rfl

theorem dict_set_mem_keys {α : Type u} (m : List (String × α)) (k : String) (v : α) :
    k ∈ (dict_set m k v).map Prod.fst := by
  induction m with
  | nil => simp [dict_set]
  | cons p rest ih =>
    obtain ⟨k0, v0⟩ := p
    by_cases h : k0 = k
    · simp [dict_set, h]
    · simp [dict_set, h, ih]

/-- C7 evaluated at the failing input: after one successful phase-1 run,
every checkpoint that phase 1 saves is present, yet a re-run performs the
`consolidate()` external call again — sub-stage 1.1 guards on the key
`"p1_mainstream"` while it saves under `"p1_mainstream_headlines"`, so its
guard never fires. -/
theorem phase1_rerun_reexecutes_consolidation :
    has_checkpoint c7_ws1 "p1_mainstream_headlines" = true ∧
    has_checkpoint c7_ws1 "p1_mainstream_narrative" = true ∧
    has_checkpoint c7_ws1 "p1_geopolitical_ledger" = true ∧
    (match WeeklyIntelOrchestrator.run_phase_1_global_overview c7_env c7_ws1 with
     | .ok pr => pr.2
     | .error _ => []) = [ExtCall.consolidate] := by
  exact ⟨rfl, rfl, rfl, rfl⟩

/-- C8 evaluated: with every phase available and succeeding, `run()`
invokes only phase 1 — not the declared phases 1-7 — while an exception
from the executed phase is still re-raised and aborts the run. -/
theorem run_executes_only_phase_one :
    (WeeklyIntelOrchestrator.run (fun _ => Except.ok ())).1 = [1] ∧
    (WeeklyIntelOrchestrator.run (fun _ => Except.ok ())).2 = none ∧
    [1] ≠ WeeklyIntelOrchestrator.declared_phases ∧
    WeeklyIntelOrchestrator.run (fun _ => Except.error PyErr.valueError) =
      ([1], some PyErr.valueError) := by
  exact ⟨rfl, rfl, by decide, rfl⟩

/-- C9 counterexample: a serialization/write failure **after** `open`
succeeded leaves has_checkpoint unchanged for the current run, but the
interrupted file it leaves on disk makes the next run's refreshed cache
report the checkpoint as present — the stage is *skipped*, not redone, on
the next run. -/
theorem save_checkpoint_interrupted_write_persists :
    has_checkpoint
      (save_checkpoint (SaveOutcome.dumpFail "truncated-json") empty_workspace
        "p5_global_briefing" "PAYLOAD") "p5_global_briefing" = false ∧
    next_run_has_checkpoint
      (save_checkpoint (SaveOutcome.dumpFail "truncated-json") empty_workspace
        "p5_global_briefing" "PAYLOAD").disk "p5_global_briefing" = true := by
  exact ⟨rfl, rfl⟩

/-- C9 amended: `save_checkpoint` never raises (it is total); on any
failure the cached listing — hence `has_checkpoint`, for every key — is
unchanged for the rest of the run, and after a successful save
`has_checkpoint(key)` is true.  The stage redoes on the next run only when
the failure prevented the file's creation (`open` failed, disk unchanged);
a failure during serialization/writing leaves an interrupted file that the
next run's directory listing counts as a present checkpoint. -/
theorem save_checkpoint_cache_semantics
    (st : WorkspaceState) (key payload : String) (outcome : SaveOutcome) :
    (outcome ≠ SaveOutcome.success →
      (save_checkpoint outcome st key payload).existing_files = st.existing_files ∧
      ∀ k, has_checkpoint (save_checkpoint outcome st key payload) k =
        has_checkpoint st k) ∧
    has_checkpoint (save_checkpoint SaveOutcome.success st key payload) key = true ∧
    save_checkpoint SaveOutcome.openFail st key payload = st ∧
    (∀ w, next_run_has_checkpoint
      (save_checkpoint (SaveOutcome.dumpFail w) st key payload).disk key = true) := by
  refine ⟨?_, ?_, rfl, ?_⟩
  · intro h
    cases outcome with
    | openFail => exact ⟨rfl, fun _ => rfl⟩
    | dumpFail w => exact ⟨rfl, fun _ => rfl⟩
    | success => exact absurd rfl h
  · simp only [has_checkpoint, save_checkpoint, set_add]
    by_cases h : (key ++ ".json") ∈ st.existing_files
    · simp [h]
    · simp [h, List.mem_append]
  · intro w
    have hmem : (key ++ ".json") ∈
        (dict_set st.disk (key ++ ".json") (FileData.interrupted w)).map Prod.fst :=
      dict_set_mem_keys st.disk (key ++ ".json") (FileData.interrupted w)
    simp only [next_run_has_checkpoint, fresh_file_cache, save_checkpoint]
    exact decide_eq_true hmem

/-- Witness for C9 amended at a concrete failed and a concrete successful
write. -/
theorem save_checkpoint_cache_semantics_witness :
    (save_checkpoint (SaveOutcome.dumpFail "x") empty_workspace "k" "P").existing_files
      = empty_workspace.existing_files ∧
    has_checkpoint (save_checkpoint SaveOutcome.success empty_workspace "k" "P") "k"
      = true := by
  have h1 := save_checkpoint_cache_semantics empty_workspace "k" "P"
    (SaveOutcome.dumpFail "x")
  have h2 := save_checkpoint_cache_semantics empty_workspace "k" "P"
    SaveOutcome.success
  exact ⟨(h1.1 (by decide)).1, h2.2.1⟩
